import Mathlib

/-!
Shallow embedding of the client-side trading-assistant logic of the
`sudhanshu-tradingagent` repository: the chat playground page
(`src/client/web/src/pages/Playground.tsx`) and the zustand auth store
(`src/client/web/src/store/authStore.ts`).

JavaScript strings are modelled as Lean `String`; `null`/`undefined`
fields as `Option`; JS truthiness of a string (`""` is falsy) via
`truthyStr`; `fetch` is modelled by an explicit outcome parameter while
the function under study records every request it issues, in order.
-/

namespace TradingAgent

/-- Does the first list start with the second? (Boolean, by recursion.) -/
def charsStartWith : List Char → List Char → Bool
  | _, [] => true
  | [], _ :: _ => false
  | a :: as, b :: bs => a == b && charsStartWith as bs

/-- Does `pat` occur contiguously inside the list? -/
def charsContain (pat : List Char) : List Char → Bool
  | [] => charsStartWith [] pat
  | b :: bs => charsStartWith (b :: bs) pat || charsContain pat bs

/-- JS `a.includes(b)` on strings: `b` occurs as a contiguous substring of `a`. -/
def includesSub (s pat : String) : Bool :=
  charsContain pat.data s.data

/-- JS `String.prototype.toLowerCase`, modelled character by character. -/
def strToLower (s : String) : String :=
  ⟨s.data.map Char.toLower⟩

/-- JS `String.prototype.trim`: strip whitespace from both ends. -/
def strTrim (s : String) : String :=
  ⟨((s.data.dropWhile Char.isWhitespace).reverse.dropWhile Char.isWhitespace).reverse⟩

/-- `src/client/web/src/pages/Playground.tsx`, `getAgentIdFromName` (lines 219-226):
keyword-based intent classification of an agent display name to an agent id. -/
def getAgentIdFromName (agentName : String) : String :=
  if includesSub (strToLower agentName) "screener" then "screener"
  else if includesSub (strToLower agentName) "visualizer" then "visualizer"
  else if includesSub (strToLower agentName) "recommender" then "recommender"
  else if includesSub (strToLower agentName) "buy" then "buy"
  else if includesSub (strToLower agentName) "sell" then "sell"
  else "orchestrator"

/-- The five keywords of the classifier, in the order the source tests them.
Each keyword doubles as the agent id it maps to. -/
def agentKeywords : List String :=
  ["screener", "visualizer", "recommender", "buy", "sell"]

/-- Specification-side restatement of the classifier: the first keyword of
`agentKeywords` occurring (case-insensitively) in the name, defaulting to
`"orchestrator"`. Compared against `getAgentIdFromName` in the proof of C1. -/
def classifySpec (agentName : String) : String :=
  (agentKeywords.find? fun kw => includesSub (strToLower agentName) kw).getD "orchestrator"

/-! ### Playground page state (`Playground.tsx`) -/

/-- Status of an agent card in the sidebar (`Agent.status`). -/
inductive AgentStatus
  | idle
  | processing
  | completed
deriving DecidableEq, Repr

/-- The scripted follow-up callbacks (`onNext` closures) attached to
interactive responses: `() => triggerScreener()`, `() => triggerRecommender()`,
`() => executeTrade()`. -/
inductive FlowCall
  | triggerScreener
  | triggerRecommender
  | executeTrade
deriving DecidableEq, Repr

/-- A row of screener stock data (`stock.ticker`, `stock.name`, `stock.performance`). -/
structure StockRow where
  ticker : String
  name : String
  performance : String
deriving DecidableEq, Repr

/-- The interactive React payload attached to a message, abstracted to the
data and callbacks it carries. -/
inductive Interactive
  | visualizerResp (onNext : FlowCall)
  | screenerResp (onNext : FlowCall)
  | screenerRespWithData (stockData : List StockRow) (onNext : FlowCall)
  | recommenderResp (onNext : FlowCall)
  | tradingResp (isBuy : Bool) (stocks : List String)
deriving DecidableEq, Repr

/-- The follow-up callback of an interactive payload, when it has one. -/
def Interactive.onNext? : Interactive → Option FlowCall
  | .visualizerResp c => some c
  | .screenerResp c => some c
  | .screenerRespWithData _ c => some c
  | .recommenderResp c => some c
  | .tradingResp _ _ => none

/-- Originator of a chat message (`Message.type`). -/
inductive MsgType
  | user
  | agent
deriving DecidableEq, Repr

/-- The `Message` interface of `Playground.tsx` (lines 15-22). -/
structure Message where
  id : String
  type : MsgType
  content : String
  agentName : Option String
  interactive : Option Interactive
  timestamp : String
deriving DecidableEq, Repr

/-- The `Agent` interface of `Playground.tsx` (lines 24-30); the `icon`
React component is omitted. -/
structure Agent where
  id : String
  name : String
  status : AgentStatus
  description : String
deriving DecidableEq, Repr

/-- The mutable state of the `Playground` component: the `query`, `isTyping`,
`messages` and `agents` `useState` hooks. -/
structure PlaygroundState where
  query : String
  isTyping : Bool
  messages : List Message
  agents : List Agent
deriving DecidableEq, Repr

/-- The initial `agents` array (`Playground.tsx` lines 45-88). -/
def initialAgents : List Agent :=
  [ { id := "orchestrator", name := "Orchestrator", status := .idle,
      description := "Coordinates workflow between agents" },
    { id := "visualizer", name := "Visualizer", status := .idle,
      description := "Creates charts and visual analysis" },
    { id := "screener", name := "Screener", status := .idle,
      description := "Filters and ranks stocks by criteria" },
    { id := "recommender", name := "Recommender", status := .idle,
      description := "Provides buy/sell recommendations" },
    { id := "buy", name := "Buy Agent", status := .idle,
      description := "Executes purchase transactions" },
    { id := "sell", name := "Sell Agent", status := .idle,
      description := "Executes sale transactions" } ]

/-- The initial welcome message (`Playground.tsx` lines 90-98); the rendered
timestamp is a parameter. -/
def welcomeMessage (ts : String) : Message :=
  { id := "welcome", type := .agent,
    content := "Welcome to Industry Agent! I can help you analyze stocks, create visualizations, screen securities, and execute trades. Try asking me to plot a chart, screen stocks, or get recommendations.",
    agentName := some "Orchestrator Agent", interactive := none, timestamp := ts }

/-- The initial component state. -/
def initialState (ts : String) : PlaygroundState :=
  { query := "", isTyping := false, messages := [welcomeMessage ts],
    agents := initialAgents }

/-! ### processUserQuery and its environment -/

/-- The JSON body of the chat request: `JSON.stringify(\x7b message: userQuery \x7d)`. -/
structure ChatRequestBody where
  message : String
deriving DecidableEq, Repr

/-- One HTTP request issued through `fetch`, as assembled by the client. -/
structure ChatRequest where
  url : String
  method : String
  contentType : String
  authorization : String
  body : ChatRequestBody
deriving DecidableEq, Repr

/-- The response the chat endpoint answers with: HTTP status (`ok`,
`statusText`) plus the parsed JSON fields `agent_name`, `message` and the
optional `data` array. -/
structure ChatResponse where
  ok : Bool
  statusText : String
  agent_name : String
  message : String
  data : Option (List StockRow)
deriving DecidableEq, Repr

/-- What `fetch` does when called: reject (network error) or resolve to a
response. -/
inductive FetchOutcome
  | netError
  | response (r : ChatResponse)
deriving DecidableEq, Repr

/-- The environment `processUserQuery` runs in: the auth-store token, the
`localStorage` entry under `access_token`, and the behaviour of `fetch`. -/
structure ProcEnv where
  storeToken : Option String
  localToken : Option String
  outcome : FetchOutcome
deriving DecidableEq, Repr

/-- JS truthiness of a nullable string: `null`/`undefined` and `""` are falsy. -/
def truthyStr : Option String → Option String
  | some s => if s = "" then none else some s
  | none => none

/-- `const token = storeToken || localStorage.getItem('access_token')`
followed by the `if (!token) throw` guard: the token the request will carry,
or `none` when the guard throws. -/
def jsTokenLookup (store loc : Option String) : Option String :=
  truthyStr (match truthyStr store with
    | some s => some s
    | none => loc)

/-- The fallback error message appended in the `catch` block of
`processUserQuery` (lines 198-204). -/
def errorMessage (msgId ts : String) : Message :=
  { id := msgId, type := .agent,
    content := "I\x27m having trouble processing your request right now. Please try again later.",
    agentName := some "System", interactive := none, timestamp := ts }

/-- `createInteractiveComponent` (lines 228-234): a screener agent with stock
data gets a `ScreenerResponseWithData` whose `onNext` is `triggerRecommender`;
every other agent gets `null`. -/
def createInteractiveComponent (stockData : List StockRow) (agentName : String) :
    Option Interactive :=
  if includesSub (strToLower agentName) "screener" then
    some (.screenerRespWithData stockData .triggerRecommender)
  else none

/-- The state change of the shared `catch` block: append the error message,
mark the orchestrator completed, and (after the try/catch) clear `isTyping`. -/
def errorFallback (msgId ts : String) (st : PlaygroundState) : PlaygroundState :=
  { st with
    messages := st.messages ++ [errorMessage msgId ts],
    agents := st.agents.map fun a =>
      if a.id = "orchestrator" then { a with status := .completed } else a,
    isTyping := false }

/-- `processUserQuery` (lines 136-217). Returns the new component state
together with the list of HTTP requests issued, in order. The fresh message
id and timestamp are parameters. -/
def processUserQuery (env : ProcEnv) (userQuery : String) (msgId ts : String)
    (st : PlaygroundState) : PlaygroundState × List ChatRequest :=
  match jsTokenLookup env.storeToken env.localToken with
  | none => (errorFallback msgId ts st, [])
  | some token =>
      let req : ChatRequest :=
        { url := "http://localhost:8000/api/chat/message", method := "POST",
          contentType := "application/json",
          authorization := "Bearer " ++ token,
          body := { message := userQuery } }
      match env.outcome with
      | .netError => (errorFallback msgId ts st, [req])
      | .response r =>
          if r.ok then
            let agentId := getAgentIdFromName r.agent_name
            let ags1 := st.agents.map fun a =>
              if a.id = agentId then { a with status := .processing }
              else if a.id = "orchestrator" ∧ agentId ≠ "orchestrator" then
                { a with status := .completed }
              else a
            let agentMessage : Message :=
              { id := msgId, type := .agent, content := r.message,
                agentName := some r.agent_name,
                interactive := r.data.bind fun d =>
                  createInteractiveComponent d r.agent_name,
                timestamp := ts }
            let ags2 := ags1.map fun a =>
              if a.id = agentId then { a with status := .completed } else a
            ({ st with messages := st.messages ++ [agentMessage],
                       agents := ags2, isTyping := false }, [req])
          else (errorFallback msgId ts st, [req])

/-! ### handleSubmit -/

/-- Result of a form submission: the new state and the query scheduled (via
`setTimeout`) for `processUserQuery`, if any. -/
structure SubmitResult where
  state : PlaygroundState
  scheduled : Option String
deriving DecidableEq, Repr

/-- `handleSubmit` (lines 108-134): guard on empty trimmed query or an
in-flight response; otherwise append the user message, clear the input, set
`isTyping`, mark the orchestrator processing and schedule processing. -/
def handleSubmit (msgId ts : String) (st : PlaygroundState) : SubmitResult :=
  if strTrim st.query = "" ∨ st.isTyping then { state := st, scheduled := none }
  else
    let userMessage : Message :=
      { id := msgId, type := .user, content := st.query, agentName := none,
        interactive := none, timestamp := ts }
    { state :=
        { st with
          messages := st.messages ++ [userMessage],
          query := "",
          isTyping := true,
          agents := st.agents.map fun a =>
            if a.id = "orchestrator" then { a with status := .processing } else a },
      scheduled := some st.query }

/-! ### The scripted generative workflow (`Playground.tsx` lines 266-499) -/

/-- `startVisualizationWorkflow` (lines 266-298): visualizer runs; its
response carries a `VisualizerResponse` whose `onNext` is `triggerScreener`. -/
def startVisualizationWorkflow (msgId ts : String) (st : PlaygroundState) :
    PlaygroundState :=
  let ags1 := st.agents.map fun a =>
    if a.id = "visualizer" then { a with status := .processing }
    else if a.id = "orchestrator" then { a with status := .completed }
    else a
  let agentMessage : Message :=
    { id := msgId, type := .agent,
      content := "I\x27ve analyzed the request and created a performance chart for Tata Motors. The data shows strong quarterly growth.",
      agentName := some "Visualizer Agent",
      interactive := some (.visualizerResp .triggerScreener), timestamp := ts }
  let ags2 := ags1.map fun a =>
    if a.id = "visualizer" then { a with status := .completed } else a
  { st with messages := st.messages ++ [agentMessage], agents := ags2,
             isTyping := false }

/-- `triggerScreener` (lines 300-330): screener runs; its response carries a
`ScreenerResponse` whose `onNext` is `triggerRecommender`. -/
def triggerScreener (msgId ts : String) (st : PlaygroundState) : PlaygroundState :=
  let ags1 := st.agents.map fun a =>
    if a.id = "screener" then { a with status := .processing } else a
  let agentMessage : Message :=
    { id := msgId, type := .agent,
      content := "I\x27ve identified the top 5 performers in the automotive sector. These stocks show strong momentum and volume.",
      agentName := some "Screener Agent",
      interactive := some (.screenerResp .triggerRecommender), timestamp := ts }
  let ags2 := ags1.map fun a =>
    if a.id = "screener" then { a with status := .completed } else a
  { st with messages := st.messages ++ [agentMessage], agents := ags2,
             isTyping := false }

/-- `triggerRecommender` (lines 332-362): recommender runs; its response
carries a `RecommenderResponse` whose `onNext` is `executeTrade`. -/
def triggerRecommender (msgId ts : String) (st : PlaygroundState) : PlaygroundState :=
  let ags1 := st.agents.map fun a =>
    if a.id = "recommender" then { a with status := .processing } else a
  let agentMessage : Message :=
    { id := msgId, type := .agent,
      content := "Based on technical analysis, I\x27ve generated buy/sell recommendations. The signals are based on RSI, MACD, and trend analysis.",
      agentName := some "Recommender Agent",
      interactive := some (.recommenderResp .executeTrade), timestamp := ts }
  let ags2 := ags1.map fun a =>
    if a.id = "recommender" then { a with status := .completed } else a
  { st with messages := st.messages ++ [agentMessage], agents := ags2,
             isTyping := false }

/-- `executeTrade` (lines 364-394): the buy agent runs; its `TradingResponse`
has no follow-up action. -/
def executeTrade (msgId ts : String) (st : PlaygroundState) : PlaygroundState :=
  let ags1 := st.agents.map fun a =>
    if a.id = "buy" then { a with status := .processing } else a
  let agentMessage : Message :=
    { id := msgId, type := .agent,
      content := "Trade execution completed successfully. Your portfolio has been updated with the new positions.",
      agentName := some "Buy Agent",
      interactive := some (.tradingResp true
        ["Tata Motors - 50 shares at ₹485", "Mahindra - 20 shares at ₹1,245"]),
      timestamp := ts }
  let ags2 := ags1.map fun a =>
    if a.id = "buy" then { a with status := .completed } else a
  { st with messages := st.messages ++ [agentMessage], agents := ags2,
             isTyping := false }

/-- `startScreeningWorkflow` (lines 396-427). -/
def startScreeningWorkflow (msgId ts : String) (st : PlaygroundState) :
    PlaygroundState :=
  let ags1 := st.agents.map fun a =>
    if a.id = "screener" then { a with status := .processing }
    else if a.id = "orchestrator" then { a with status := .completed }
    else a
  let agentMessage : Message :=
    { id := msgId, type := .agent,
      content := "I\x27ve screened the market based on your criteria. Here are the top performers with strong fundamentals and technical indicators.",
      agentName := some "Screener Agent",
      interactive := some (.screenerResp .triggerRecommender), timestamp := ts }
  let ags2 := ags1.map fun a =>
    if a.id = "screener" then { a with status := .completed } else a
  { st with messages := st.messages ++ [agentMessage], agents := ags2,
             isTyping := false }

/-- `startRecommendationWorkflow` (lines 429-460). -/
def startRecommendationWorkflow (msgId ts : String) (st : PlaygroundState) :
    PlaygroundState :=
  let ags1 := st.agents.map fun a =>
    if a.id = "recommender" then { a with status := .processing }
    else if a.id = "orchestrator" then { a with status := .completed }
    else a
  let agentMessage : Message :=
    { id := msgId, type := .agent,
      content := "I\x27ve analyzed the requested securities and generated comprehensive recommendations based on multiple technical indicators.",
      agentName := some "Recommender Agent",
      interactive := some (.recommenderResp .executeTrade), timestamp := ts }
  let ags2 := ags1.map fun a =>
    if a.id = "recommender" then { a with status := .completed } else a
  { st with messages := st.messages ++ [agentMessage], agents := ags2,
             isTyping := false }

/-- `startDirectTradingWorkflow` (lines 462-499). -/
def startDirectTradingWorkflow (q msgId ts : String) (st : PlaygroundState) :
    PlaygroundState :=
  let isBuy := includesSub (strToLower q) "buy"
  let agentId := if isBuy then "buy" else "sell"
  let ags1 := st.agents.map fun a =>
    if a.id = agentId then { a with status := .processing }
    else if a.id = "orchestrator" then { a with status := .completed }
    else a
  let agentMessage : Message :=
    { id := msgId, type := .agent,
      content := "I\x27ve executed your " ++ (if isBuy then "purchase" else "sale") ++
        " order successfully. The transaction has been completed and your portfolio updated.",
      agentName := some ((if isBuy then "Buy" else "Sell") ++ " Agent"),
      interactive := some (.tradingResp isBuy
        ["RELIANCE - 25 shares at ₹" ++ (if isBuy then "2,450" else "2,475")]),
      timestamp := ts }
  let ags2 := ags1.map fun a =>
    if a.id = agentId then { a with status := .completed } else a
  { st with messages := st.messages ++ [agentMessage], agents := ags2,
             isTyping := false }

/-- Dispatch an `onNext` callback to the step function it invokes. -/
def runFlowCall : FlowCall → String → String → PlaygroundState → PlaygroundState
  | .triggerScreener => triggerScreener
  | .triggerRecommender => triggerRecommender
  | .executeTrade => executeTrade

/-- The follow-up callback attached to the last message of a state. -/
def lastOnNext (st : PlaygroundState) : Option FlowCall :=
  st.messages.getLast?.bind fun m => m.interactive.bind Interactive.onNext?

/-- Position of each step in the scripted flow
visualize (0) → screen (1) → recommend (2) → trade (3). -/
def FlowCall.stageIdx : FlowCall → Nat
  | .triggerScreener => 1
  | .triggerRecommender => 2
  | .executeTrade => 3

/-! ### Auth store (`authStore.ts`) -/

/-- The `User` interface of `authStore.ts` (lines 4-9). -/
structure AuthUser where
  id : Nat
  email : String
  username : String
  phone : String
deriving DecidableEq, Repr

/-- The data fields of `AuthState` (lines 11-16). -/
structure AuthState where
  user : Option AuthUser
  token : Option String
  isAuthenticated : Bool
  isLoading : Bool
  error : Option String
deriving DecidableEq, Repr

/-- The initial store state (lines 33-37). -/
def authInit : AuthState :=
  { user := none, token := none, isAuthenticated := false, isLoading := false,
    error := none }

/-- How the login request turns out: a thrown error (network failure, or a
non-ok response whose message is `detail` or the `'Login failed'` fallback),
or an ok response carrying `access_token`. -/
inductive LoginOutcome
  | err (msg : String)
  | ok (accessToken : String)
deriving DecidableEq, Repr

/-- `login` (lines 39-76): returns the new store state and the boolean the
promise resolves to. -/
def login (o : LoginOutcome) (s : AuthState) : AuthState × Bool :=
  let s1 := { s with isLoading := true, error := none }
  match o with
  | .ok tok =>
      ({ s1 with token := some tok, isAuthenticated := true, isLoading := false,
                 error := none }, true)
  | .err m =>
      ({ s1 with isLoading := false, error := some m, isAuthenticated := false,
                 token := none, user := none }, false)

/-- How the registration request turns out: a thrown error, or an ok
response carrying the registered user. -/
inductive RegisterOutcome
  | err (msg : String)
  | ok (registeredUser : AuthUser)
deriving DecidableEq, Repr

/-- `register` (lines 78-116): on a successful registration it stores the
user and auto-logs-in; it succeeds only when that login also succeeds. -/
def register (ro : RegisterOutcome) (lo : LoginOutcome) (s : AuthState) :
    AuthState × Bool :=
  let s1 := { s with isLoading := true, error := none }
  match ro with
  | .err m => ({ s1 with isLoading := false, error := some m }, false)
  | .ok u =>
      let s2 := { s1 with user := some u }
      let res := login lo s2
      if res.2 then ({ res.1 with isLoading := false, error := none }, true)
      else
        ({ res.1 with isLoading := false, error := some "Registration successful but auto-login failed" }, false)

/-- `logout` (lines 118-125): clear user, token, authentication flag and
error; zustand `set` merges, so all other fields keep their values. -/
def logout (s : AuthState) : AuthState :=
  { s with user := none, token := none, isAuthenticated := false, error := none }

/-! ### Concrete fixtures used to evaluate the definitions -/

/-- An ok screener response without a `data` field. -/
def respScreenerOk : ChatResponse :=
  { ok := true, statusText := "OK", agent_name := "Screener Agent",
    message := "done", data := none }

/-- Environment with a store token and an ok response. -/
def envScreenerOk : ProcEnv :=
  { storeToken := some "tok", localToken := none,
    outcome := .response respScreenerOk }

/-- Environment with a store token whose fetch rejects. -/
def envNetErr : ProcEnv :=
  { storeToken := some "tok", localToken := none, outcome := .netError }

/-- Environment with no token anywhere. -/
def envNoToken : ProcEnv :=
  { storeToken := none, localToken := none, outcome := .netError }

/-- Environment whose store token is present but empty, with a fallback
token in `localStorage`. -/
def envEmptyStoreTok : ProcEnv :=
  { storeToken := some "", localToken := some "tok",
    outcome := .response respScreenerOk }

end TradingAgent

namespace TradingAgent

/-- C1: for every input string, `getAgentIdFromName` returns the id of the
first keyword among screener, visualizer, recommender, buy, sell occurring
case-insensitively as a substring of the name (`"orchestrator"` when none
does), and its result is always one of the six fixed agent identifiers. -/
theorem getAgentIdFromName_first_keyword (agentName : String) :
    getAgentIdFromName agentName = classifySpec agentName ∧
    getAgentIdFromName agentName ∈
      ["screener", "visualizer", "recommender", "buy", "sell", "orchestrator"] := by
  unfold getAgentIdFromName classifySpec agentKeywords
  simp only [List.find?]
  constructor
  · split_ifs <;> simp_all
  · split_ifs <;> simp

/-- C10: `logout` sets `user` and `token` to `null`, `isAuthenticated` to
`false` and `error` to `null`, and leaves the remaining data field of the
store, `isLoading`, unchanged, from any state. -/
theorem logout_resets (s : AuthState) :
    (logout s).user = none ∧ (logout s).token = none ∧
    (logout s).isAuthenticated = false ∧ (logout s).error = none ∧
    (logout s).isLoading = s.isLoading := by
  simp [logout]

/-- C9: when the trimmed query is empty or a response is in flight,
`handleSubmit` leaves the state untouched and schedules no processing. -/
theorem handleSubmit_guard (msgId ts : String) (st : PlaygroundState)
    (h : strTrim st.query = "" ∨ st.isTyping = true) :
    handleSubmit msgId ts st = { state := st, scheduled := none } := by
  unfold handleSubmit
  rcases h with h | h <;> simp [h]

/-- Witness for C9 at the initial state, whose query is empty. -/
theorem handleSubmit_guard_witness :
    handleSubmit "m1" "t1" (initialState "t0") =
      { state := initialState "t0", scheduled := none } :=
  handleSubmit_guard "m1" "t1" (initialState "t0") (Or.inl (by decide))

/-- C7: `register` returns `true` exactly when both the registration request
and the automatic login succeed, and whenever it returns `false` the store is
left with a non-null error message. -/
theorem register_success_iff (ro : RegisterOutcome) (lo : LoginOutcome)
    (s : AuthState) :
    ((register ro lo s).2 = true ↔
       (∃ u, ro = .ok u) ∧ ∃ tok, lo = .ok tok) ∧
    ((register ro lo s).2 = false →
       ∃ m, (register ro lo s).1.error = some m) := by
  cases ro <;> cases lo <;> simp [register, login]

/-- Witness for C7: a failed registration with a would-be-successful login
returns `false` and leaves an error message. -/
theorem register_success_iff_witness :
    ∃ m, (register (.err "boom") (.ok "tok") authInit).1.error = some m :=
  (register_success_iff (.err "boom") (.ok "tok") authInit).2 (by decide)

/-- C8: every modelled handler of the Playground component only ever appends
to the message list: the previous messages are an unchanged prefix of the new
ones in every branch. -/
theorem handlers_append_only (env : ProcEnv) (q msgId ts : String)
    (st : PlaygroundState) :
    (∃ tl, (handleSubmit msgId ts st).state.messages = st.messages ++ tl) ∧
    (∃ tl, (processUserQuery env q msgId ts st).1.messages = st.messages ++ tl) ∧
    (∃ tl, (startVisualizationWorkflow msgId ts st).messages = st.messages ++ tl) ∧
    (∃ tl, (triggerScreener msgId ts st).messages = st.messages ++ tl) ∧
    (∃ tl, (triggerRecommender msgId ts st).messages = st.messages ++ tl) ∧
    (∃ tl, (executeTrade msgId ts st).messages = st.messages ++ tl) ∧
    (∃ tl, (startScreeningWorkflow msgId ts st).messages = st.messages ++ tl) ∧
    (∃ tl, (startRecommendationWorkflow msgId ts st).messages = st.messages ++ tl) ∧
    (∃ tl, (startDirectTradingWorkflow q msgId ts st).messages = st.messages ++ tl) := by
  refine ⟨?_, ?_, ?_, ?_, ?_, ?_, ?_, ?_, ?_⟩
  · unfold handleSubmit
    split
    · exact ⟨[], by simp⟩
    · exact ⟨_, rfl⟩
  · unfold processUserQuery
    cases jsTokenLookup env.storeToken env.localToken with
    | none => exact ⟨_, rfl⟩
    | some tok =>
        cases env.outcome with
        | netError => exact ⟨_, rfl⟩
        | response r =>
            by_cases hok : r.ok = true <;> simp [hok, errorFallback]
  all_goals exact ⟨_, rfl⟩

/-- C2: every request `processUserQuery` issues is a POST to the chat
endpoint whose body is exactly the user text; on an ok response exactly one
agent message is appended, carrying the response's `message` and
`agent_name`, with an interactive payload only when the `data` field is
present. -/
theorem processUserQuery_request_response (env : ProcEnv) (q msgId ts : String)
    (st : PlaygroundState) :
    (∀ req ∈ (processUserQuery env q msgId ts st).2,
        req.url = "http://localhost:8000/api/chat/message" ∧
        req.method = "POST" ∧ req.body = { message := q }) ∧
    (∀ r : ChatResponse, env.outcome = .response r → r.ok = true →
        jsTokenLookup env.storeToken env.localToken ≠ none →
        ∃ m : Message,
          (processUserQuery env q msgId ts st).1.messages = st.messages ++ [m] ∧
          m.type = .agent ∧ m.content = r.message ∧
          m.agentName = some r.agent_name ∧
          (r.data = none → m.interactive = none) ∧
          (m.interactive ≠ none → r.data ≠ none)) := by
  unfold processUserQuery
  cases htok : jsTokenLookup env.storeToken env.localToken with
  | none =>
      refine ⟨?_, ?_⟩
      · intro req hreq
        simp at hreq
      · intro r _ _ hne
        exact absurd rfl hne
  | some tok =>
      cases ho : env.outcome with
      | netError =>
          refine ⟨?_, ?_⟩
          · intro req hreq
            simp at hreq
            simp [hreq]
          · intro r hr
            simp [ho] at hr
      | response r =>
          by_cases hok : r.ok = true
          · refine ⟨?_, ?_⟩
            · intro req hreq
              simp [hok] at hreq
              simp [hreq]
            · intro r' hr' hok' _
              injection hr' with hrr
              subst hrr
              refine ⟨{ id := msgId, type := .agent, content := r.message,
                        agentName := some r.agent_name,
                        interactive := r.data.bind fun d =>
                          createInteractiveComponent d r.agent_name,
                        timestamp := ts }, by simp [hok], rfl, rfl, rfl, ?_, ?_⟩
              · intro hd
                simp [hd]
              · intro hni hd
                simp [hd] at hni
          · refine ⟨?_, ?_⟩
            · intro req hreq
              simp [hok] at hreq
              simp [hreq]
            · intro r' hr' hok' _
              injection hr' with hrr
              subst hrr
              exact absurd hok' hok

/-- Witness for C2 at a concrete ok response without a `data` field. -/
theorem processUserQuery_request_response_witness :
    ∃ m : Message,
      (processUserQuery envScreenerOk "screen stocks" "m1" "t1"
          (initialState "t0")).1.messages
        = (initialState "t0").messages ++ [m] ∧
      m.type = .agent ∧ m.content = respScreenerOk.message ∧
      m.agentName = some respScreenerOk.agent_name ∧
      (respScreenerOk.data = none → m.interactive = none) ∧
      (m.interactive ≠ none → respScreenerOk.data ≠ none) :=
  (processUserQuery_request_response envScreenerOk "screen stocks" "m1" "t1"
    (initialState "t0")).2 respScreenerOk rfl rfl (by decide)

/-- C4: on every failure — missing token, network error, or a non-ok
response — exactly one error message attributed to `"System"` is appended,
at most one request was issued (no retry), and `isTyping` ends up `false`. -/
theorem processUserQuery_error_path (env : ProcEnv) (q msgId ts : String)
    (st : PlaygroundState)
    (hfail : jsTokenLookup env.storeToken env.localToken = none ∨
             env.outcome = .netError ∨
             ∃ r : ChatResponse, env.outcome = .response r ∧ r.ok = false) :
    (processUserQuery env q msgId ts st).1.messages
      = st.messages ++ [errorMessage msgId ts] ∧
    (errorMessage msgId ts).agentName = some "System" ∧
    (processUserQuery env q msgId ts st).2.length ≤ 1 ∧
    (processUserQuery env q msgId ts st).1.isTyping = false := by
  unfold processUserQuery
  cases htok : jsTokenLookup env.storeToken env.localToken with
  | none => simp [errorFallback, errorMessage]
  | some tok =>
      rcases hfail with hfail | hfail | ⟨r, hr, hok⟩
      · exact absurd htok (by simp [hfail])
      · simp [hfail, errorFallback, errorMessage]
      · simp [hr, hok, errorFallback, errorMessage]

/-- Witness for C4 on a network error with a valid token. -/
theorem processUserQuery_error_path_witness :
    (processUserQuery envNetErr "hi" "m1" "t1" (initialState "t0")).1.messages
      = (initialState "t0").messages ++ [errorMessage "m1" "t1"] ∧
    (errorMessage "m1" "t1").agentName = some "System" ∧
    (processUserQuery envNetErr "hi" "m1" "t1" (initialState "t0")).2.length ≤ 1 ∧
    (processUserQuery envNetErr "hi" "m1" "t1" (initialState "t0")).1.isTyping = false :=
  processUserQuery_error_path envNetErr
    "hi" "m1" "t1" (initialState "t0") (Or.inr (Or.inl rfl))

/-- C5: the auth check precedes the API call: with no token in the store nor
in `localStorage` no request is issued and the error path runs, and a request
is issued only when the token lookup succeeded. -/
theorem processUserQuery_auth_first (env : ProcEnv) (q msgId ts : String)
    (st : PlaygroundState) :
    (env.storeToken = none ∧ env.localToken = none →
        (processUserQuery env q msgId ts st).2 = [] ∧
        (processUserQuery env q msgId ts st).1.messages
          = st.messages ++ [errorMessage msgId ts]) ∧
    ((processUserQuery env q msgId ts st).2 ≠ [] →
        ∃ t, jsTokenLookup env.storeToken env.localToken = some t) := by
  refine ⟨?_, ?_⟩
  · rintro ⟨h1, h2⟩
    unfold processUserQuery
    simp [jsTokenLookup, truthyStr, h1, h2, errorFallback]
  · intro hne
    unfold processUserQuery at hne
    cases htok : jsTokenLookup env.storeToken env.localToken with
    | none => rw [htok] at hne; simp at hne
    | some t => exact ⟨t, rfl⟩

/-- Witness for C5: with both token sources absent, no request is issued and
the error message is appended. -/
theorem processUserQuery_auth_first_witness :
    (processUserQuery envNoToken "hi" "m1" "t1" (initialState "t0")).2 = [] ∧
    (processUserQuery envNoToken "hi" "m1" "t1" (initialState "t0")).1.messages
      = (initialState "t0").messages ++ [errorMessage "m1" "t1"] :=
  (processUserQuery_auth_first envNoToken
    "hi" "m1" "t1" (initialState "t0")).1 ⟨rfl, rfl⟩

/-- Helper: what a successful token lookup says about its two sources.
The JS `||` falls back on an empty store token, not only on a missing one. -/
theorem jsTokenLookup_cases (store loc : Option String) (t : String)
    (h : jsTokenLookup store loc = some t) :
    t ≠ "" ∧ (store = some t ∨
      ((store = none ∨ store = some "") ∧ loc = some t)) := by
  unfold jsTokenLookup truthyStr at h
  cases store with
  | none =>
      cases loc with
      | none => simp at h
      | some l =>
          rcases eq_or_ne l "" with hl | hl
          · simp [hl] at h
          · simp [hl] at h
            simp_all
  | some s =>
      by_cases hs : s = ""
      · cases loc with
        | none => simp [hs] at h
        | some l =>
            rcases eq_or_ne l "" with hl | hl
            · simp [hs, hl] at h
            · simp [hs, hl] at h
              simp_all
      · simp [hs] at h
        simp_all

/-- C6 counterexample: with a present-but-empty store token and a persisted
token `"tok"`, the issued request carries `Bearer tok`, not the store token. -/
theorem bearer_header_counterexample :
    envEmptyStoreTok.storeToken = some "" ∧
    (processUserQuery envEmptyStoreTok "hi" "m1" "t1"
        (initialState "t0")).2.map ChatRequest.authorization = ["Bearer tok"] ∧
    ("Bearer tok" : String) ≠ "Bearer " ++ "" := by
  refine ⟨rfl, ?_, by decide⟩
  rfl

/-- C6 (amended): every issued chat request carries
`Authorization: Bearer <token>`, where `<token>` is the store token when that
is present and non-empty, and otherwise the token persisted under
`access_token`. -/
theorem bearer_header_source (env : ProcEnv) (q msgId ts : String)
    (st : PlaygroundState) (req : ChatRequest)
    (h : req ∈ (processUserQuery env q msgId ts st).2) :
    ∃ t, req.authorization = "Bearer " ++ t ∧ t ≠ "" ∧
      (env.storeToken = some t ∨
       ((env.storeToken = none ∨ env.storeToken = some "") ∧
        env.localToken = some t)) := by
  unfold processUserQuery at h
  cases htok : jsTokenLookup env.storeToken env.localToken with
  | none => rw [htok] at h; simp at h
  | some t =>
      rw [htok] at h
      obtain ⟨ht, hsrc⟩ := jsTokenLookup_cases env.storeToken env.localToken t htok
      refine ⟨t, ?_, ht, hsrc⟩
      cases ho : env.outcome with
      | netError =>
          rw [ho] at h
          simp at h
          simp [h]
      | response r =>
          rw [ho] at h
          by_cases hok : r.ok = true
          · simp [hok] at h
            simp [h]
          · simp [hok] at h
            simp [h]

/-- Witness for the amended C6: with store token `"abc"` the single issued
request carries `Bearer abc`. -/
theorem bearer_header_source_witness :
    ∃ t, (ChatRequest.mk "http://localhost:8000/api/chat/message" "POST"
        "application/json" ("Bearer " ++ "abc") (ChatRequestBody.mk "q")).authorization
        = "Bearer " ++ t ∧ t ≠ "" ∧
      ((ProcEnv.mk (some "abc") none .netError).storeToken = some t ∨
       (((ProcEnv.mk (some "abc") none .netError).storeToken = none ∨
         (ProcEnv.mk (some "abc") none .netError).storeToken = some "") ∧
        (ProcEnv.mk (some "abc") none .netError).localToken = some t)) :=
  bearer_header_source (ProcEnv.mk (some "abc") none .netError) "q" "m1" "t1"
    (initialState "t0")
    (ChatRequest.mk "http://localhost:8000/api/chat/message" "POST"
      "application/json" ("Bearer " ++ "abc") (ChatRequestBody.mk "q"))
    (by decide)

/-- C3: the scripted generative flow runs visualize → screen → recommend →
trade: each step attaches to its response exactly the follow-up action that
invokes the next step, the trade step attaches none, and every follow-up
action moves the flow forward by exactly one stage. -/
theorem scripted_flow_order (st : PlaygroundState) (msgId ts : String) :
    lastOnNext (startVisualizationWorkflow msgId ts st) = some .triggerScreener ∧
    lastOnNext (triggerScreener msgId ts st) = some .triggerRecommender ∧
    lastOnNext (triggerRecommender msgId ts st) = some .executeTrade ∧
    lastOnNext (executeTrade msgId ts st) = none ∧
    (∀ c c' : FlowCall,
        lastOnNext (runFlowCall c msgId ts st) = some c' →
        c'.stageIdx = c.stageIdx + 1) := by
  refine ⟨?_, ?_, ?_, ?_, ?_⟩
  · simp [lastOnNext, startVisualizationWorkflow, Interactive.onNext?]
  · simp [lastOnNext, triggerScreener, Interactive.onNext?]
  · simp [lastOnNext, triggerRecommender, Interactive.onNext?]
  · simp [lastOnNext, executeTrade, Interactive.onNext?]
  · intro c c' hc
    cases c <;>
      simp [runFlowCall, lastOnNext, triggerScreener, triggerRecommender,
        executeTrade, Interactive.onNext?] at hc <;>
      simp [← hc, FlowCall.stageIdx]

/-- Witness for C3: the screener step's follow-up is the recommender step,
one stage further on. -/
theorem scripted_flow_order_witness :
    FlowCall.stageIdx .triggerRecommender = FlowCall.stageIdx .triggerScreener + 1 :=
  (scripted_flow_order (initialState "t0") "m1" "t1").2.2.2.2
    .triggerScreener .triggerRecommender (by decide)

end TradingAgent
